import Mathlib

/-!
Shallow embedding of `rusoto/credential/src/instance_metadata.rs`:
the two-step instance-metadata credential fetch protocol
(`InstanceMetadataProvider` and its poll-driven future).

External collaborators that are not part of this file of the repository
(the HTTP client in `request.rs`, the credential JSON parser in the crate
root, hyper's `Uri` parser) are modelled abstractly, as parameters or as
small records carrying exactly the data the protocol hands them.
-/

namespace Rusoto

/-- `std::time::Duration`, abstracted to a number of time units. -/
abbrev Duration := Nat

/-- `Duration::from_secs`. -/
def Duration.from_secs (n : Nat) : Duration := n

/-- Modelled from the spec: a parsed `hyper::Uri` (the spec's HttpFetchEngine
takes a uri); we retain the textual form. -/
abbrev Uri := String

/-- Modelled from the spec: `CredentialsError` carries a human message
("kind + human message + optional wrapped cause"); only the message is
relevant to the protocol. The type itself lives in the crate root, which is
not part of the visible sources. -/
structure CredentialsError where
  message : String
  deriving DecidableEq, Repr

/-- `CredentialsError::new(e)`: wrap an error description. -/
def CredentialsError.new (e : String) : CredentialsError := ⟨e⟩

/-- Modelled from the spec: `AwsCredentials` — access key id, secret key,
optional session token, optional expiration timestamp (spec §3). The type
lives in the crate root, which is not part of the visible sources. -/
structure AwsCredentials where
  aws_access_key_id : String
  aws_secret_access_key : String
  token : Option String
  expires_at : Option Nat
  deriving DecidableEq, Repr

/-- Modelled from the spec: the HTTP client handle from `request.rs`
("internal client handles"); it carries no protocol-visible state. -/
structure HttpClient where
  deriving DecidableEq, Repr

/-- `HttpClient::new()`. -/
def HttpClient.new : HttpClient := ⟨⟩

/-- `Clone::clone` on the client handle. -/
def HttpClient.clone (c : HttpClient) : HttpClient := c

/-- Modelled from the spec: `HttpClientFuture`, the pending single GET
issued by `HttpFetchEngine.get(uri, timeout)` (spec §4.5); it records the
uri and the timeout it was issued with. `request.rs` is not part of the
visible sources. -/
structure HttpClientFuture where
  uri : Uri
  timeout : Duration
  deriving DecidableEq, Repr

/-- Modelled from the spec: `HttpClient::get(uri, timeout)` issues one
bounded-timeout GET (spec §4.5 `get(uri, timeout) → bytes | CredentialsError`)
and returns the pending future. -/
def HttpClient.get (_ : HttpClient) (uri : Uri) (timeout : Duration) : HttpClientFuture :=
  { uri := uri, timeout := timeout }

/-- `futures::Async`: the non-error part of a poll outcome. -/
inductive Async (α : Type) where
  | notReady : Async α
  | ready (a : α) : Async α
  deriving DecidableEq, Repr

/-- `futures::Poll<T, CredentialsError>` = `Result<Async<T>, CredentialsError>`. -/
abbrev PollResult (α : Type) := Except CredentialsError (Async α)

/-- The environment a single call to `poll` runs against: the outcome of
polling each pending HTTP future at this instant, hyper's `Uri` parser, and
the crate-root credential parser `parse_credentials_from_aws_service`
(modelled from the spec: "Malformed JSON or missing required fields →
CredentialsError", spec §4.2; the parser itself is not in the visible
sources). -/
structure Env where
  net : HttpClientFuture → PollResult String
  parseUri : String → Except String Uri
  parseCreds : String → Except CredentialsError AwsCredentials

/-- `AWS_CREDENTIALS_PROVIDER_IP`. -/
def AWS_CREDENTIALS_PROVIDER_IP : String := "169.254.169.254"

/-- `AWS_CREDENTIALS_PROVIDER_PATH`. -/
def AWS_CREDENTIALS_PROVIDER_PATH : String := "latest/meta-data/iam/security-credentials"

/-- `InstanceMetadataProvider`. -/
structure InstanceMetadataProvider where
  client : HttpClient
  timeout : Duration
  metadata_ip_addr : String
  deriving DecidableEq, Repr

namespace InstanceMetadataProvider

/-- `InstanceMetadataProvider::new()`. -/
def new : InstanceMetadataProvider :=
  { client := HttpClient.new
  , timeout := Duration.from_secs 30
  , metadata_ip_addr := AWS_CREDENTIALS_PROVIDER_IP }

/-- `set_timeout(&mut self, timeout)`: explicit state passing for the
`&mut self` method. -/
def set_timeout (self : InstanceMetadataProvider) (timeout : Duration) :
    InstanceMetadataProvider :=
  { self with timeout := timeout }

/-- `set_ip_addr_with_port(&mut self, ip, port)`: explicit state passing for
the `&mut self` method. -/
def set_ip_addr_with_port (self : InstanceMetadataProvider) (ip port : String) :
    InstanceMetadataProvider :=
  { self with metadata_ip_addr := ip ++ ":" ++ port }

end InstanceMetadataProvider

instance {ε α : Type} [DecidableEq ε] [DecidableEq α] : DecidableEq (Except ε α) :=
  fun a b =>
    match a, b with
    | .ok x, .ok y =>
        if h : x = y then isTrue (by rw [h]) else isFalse (by simp [h])
    | .error x, .error y =>
        if h : x = y then isTrue (by rw [h]) else isFalse (by simp [h])
    | .ok _, .error _ => isFalse (by simp)
    | .error _, .ok _ => isFalse (by simp)

/-- `InstanceMetadataFutureState`. -/
inductive InstanceMetadataFutureState where
  | Start : InstanceMetadataFutureState
  | GetRoleName (f : HttpClientFuture) : InstanceMetadataFutureState
  | GetCredentialsFromRole (f : HttpClientFuture) : InstanceMetadataFutureState
  | Done (r : Except CredentialsError AwsCredentials) : InstanceMetadataFutureState
  deriving DecidableEq, Repr

/-- `InstanceMetadataProviderFuture`. -/
structure InstanceMetadataProviderFuture where
  state : InstanceMetadataFutureState
  client : HttpClient
  timeout : Duration
  metadata_ip_addr : String
  deriving DecidableEq, Repr

/-- The url string built by `get_role_name`:
`format!("http://{}/{}/", ip_addr, AWS_CREDENTIALS_PROVIDER_PATH)`. -/
def role_name_address (ip_addr : String) : String :=
  "http://" ++ ip_addr ++ "/" ++ AWS_CREDENTIALS_PROVIDER_PATH ++ "/"

/-- The url string built by `get_credentials_from_role`:
`format!("http://{}/{}/{}", ip_addr, AWS_CREDENTIALS_PROVIDER_PATH, role_name)`. -/
def credentials_provider_url (ip_addr role_name : String) : String :=
  "http://" ++ ip_addr ++ "/" ++ AWS_CREDENTIALS_PROVIDER_PATH ++ "/" ++ role_name

/-- `get_role_name(client, timeout, ip_addr)`: build the step-1 url, parse it
as a `Uri` (returning `CredentialsError::new(e)` on failure), and issue the
GET. -/
def get_role_name (parseUri : String → Except String Uri) (client : HttpClient)
    (timeout : Duration) (ip_addr : String) :
    Except CredentialsError HttpClientFuture :=
  let role_name_address := role_name_address ip_addr
  match parseUri role_name_address with
  | .error e => .error (CredentialsError.new e)
  | .ok u => .ok (client.get u timeout)

/-- `get_credentials_from_role(client, timeout, role_name, ip_addr)`: build
the step-2 url, parse it as a `Uri` (returning `CredentialsError::new(e)` on
failure), and issue the GET. -/
def get_credentials_from_role (parseUri : String → Except String Uri)
    (client : HttpClient) (timeout : Duration) (role_name : String)
    (ip_addr : String) : Except CredentialsError HttpClientFuture :=
  let credentials_provider_url := credentials_provider_url ip_addr role_name
  match parseUri credentials_provider_url with
  | .error e => .error (CredentialsError.new e)
  | .ok u => .ok (client.get u timeout)

/-- Outcome of one arm of the `match` inside
`InstanceMetadataProviderFuture::poll`:
  * `continue_`: `self.state = new_state; self.poll()` — a transition was
    taken and the Rust code recurses;
  * `notReady`: `try_ready!` saw `NotReady` and returned it, leaving the
    state untouched;
  * `err` / `ok`: the whole fetch resolved. -/
inductive PollOutcome where
  | continue_ (f : InstanceMetadataProviderFuture) : PollOutcome
  | notReady (f : InstanceMetadataProviderFuture) : PollOutcome
  | err (e : CredentialsError) : PollOutcome
  | ok (c : AwsCredentials) : PollOutcome
  deriving DecidableEq, Repr

/-- One arm of the `match self.state` in
`InstanceMetadataProviderFuture::poll`, the single-transition step the
recursive `poll` iterates. -/
def pollOnce (env : Env) (self : InstanceMetadataProviderFuture) : PollOutcome :=
  match self.state with
  | .Start =>
      match get_role_name env.parseUri self.client self.timeout self.metadata_ip_addr with
      | .error e => .err e
      | .ok new_future => .continue_ { self with state := .GetRoleName new_future }
  | .GetRoleName future =>
      match env.net future with
      | .error e => .err e
      | .ok .notReady => .notReady self
      | .ok (.ready role_name) =>
          match get_credentials_from_role env.parseUri self.client self.timeout
              role_name self.metadata_ip_addr with
          | .error e => .err e
          | .ok new_future =>
              .continue_ { self with state := .GetCredentialsFromRole new_future }
  | .GetCredentialsFromRole future =>
      match env.net future with
      | .error e => .err e
      | .ok .notReady => .notReady self
      | .ok (.ready cred_str) =>
          .continue_ { self with state := .Done (env.parseCreds cred_str) }
  | .Done r =>
      match r with
      | .error e => .err e
      | .ok c => .ok c

/-- One call to the Rust `poll`: iterate `pollOnce` through the
`self.state = new_state; self.poll()` recursion until the call returns.
The state rank strictly increases on every `continue_`, so fuel 4 always
suffices. -/
def pollRust (env : Env) : Nat → InstanceMetadataProviderFuture →
    Except CredentialsError (Async AwsCredentials) × InstanceMetadataProviderFuture
  | 0, self => (.ok .notReady, self)
  | fuel + 1, self =>
      match pollOnce env self with
      | .continue_ f => pollRust env fuel f
      | .notReady f => (.ok .notReady, f)
      | .err e => (.error e, self)
      | .ok c => (.ok (.ready c), self)

/-- `ProvideAwsCredentials::credentials(&self)` for
`InstanceMetadataProvider`: the fresh future. -/
def credentials (self : InstanceMetadataProvider) : InstanceMetadataProviderFuture :=
  { state := .Start
  , client := self.client.clone
  , timeout := self.timeout
  , metadata_ip_addr := self.metadata_ip_addr }

/-- The `&self` method call in explicit state-passing form: `credentials`
borrows the provider immutably, so the post-call provider is the argument
itself. -/
def credentialsCall (self : InstanceMetadataProvider) :
    InstanceMetadataProviderFuture × InstanceMetadataProvider :=
  (credentials self, self)

/-- Position of a state along `Start → GetRoleName → GetCredentialsFromRole
→ Done`. -/
def stateRank : InstanceMetadataFutureState → Nat
  | .Start => 0
  | .GetRoleName _ => 1
  | .GetCredentialsFromRole _ => 2
  | .Done _ => 3

/-- Is the state the credential-retrieval (step 2) state? -/
def isGetCredentialsFromRole : InstanceMetadataFutureState → Bool
  | .GetCredentialsFromRole _ => true
  | _ => false

/-! Concrete instants of the environment and of in-flight futures, used to
evaluate the protocol on explicit inputs. -/

/-- The pending step-1 GET against the default endpoint. -/
def roleListFuture : HttpClientFuture :=
  { uri := "http://169.254.169.254/latest/meta-data/iam/security-credentials/"
  , timeout := Duration.from_secs 30 }

/-- A fetch that has issued step 1 and is awaiting the role name. -/
def futAwaitRole : InstanceMetadataProviderFuture :=
  { state := .GetRoleName roleListFuture
  , client := HttpClient.new
  , timeout := Duration.from_secs 30
  , metadata_ip_addr := AWS_CREDENTIALS_PROVIDER_IP }

/-- A fetch that has issued step 2 and is awaiting the credential body. -/
def futAwaitCreds : InstanceMetadataProviderFuture :=
  { state := .GetCredentialsFromRole roleListFuture
  , client := HttpClient.new
  , timeout := Duration.from_secs 30
  , metadata_ip_addr := AWS_CREDENTIALS_PROVIDER_IP }

/-- An instant at which every pending GET fails (for example connection
refused). -/
def envNetError : Env :=
  { net := fun _ => .error (CredentialsError.new "connection refused")
  , parseUri := Except.ok
  , parseCreds := fun _ => .error (CredentialsError.new "unparsable") }

/-- An instant at which every pending GET resolves to a two-line body. -/
def envTwoLines : Env :=
  { net := fun _ => .ok (.ready ("role-a" ++ "\n" ++ "role-b"))
  , parseUri := Except.ok
  , parseCreds := fun _ => .error (CredentialsError.new "unparsable") }

/-- An instant at which every pending GET resolves to an empty body. -/
def envEmptyBody : Env :=
  { net := fun _ => .ok (.ready "")
  , parseUri := Except.ok
  , parseCreds := fun _ => .error (CredentialsError.new "unparsable") }

/-- Claim C1: if the role-discovery step fails, the fetch resolves to that
`CredentialsError`; the step is not a transition, so the future never enters
the `GetCredentialsFromRole` state, and a full `poll` call returns the error
with the state unchanged. -/
theorem step1_error_aborts_fetch (env : Env)
    (self : InstanceMetadataProviderFuture) (f : HttpClientFuture)
    (e : CredentialsError) (hs : self.state = .GetRoleName f)
    (hnet : env.net f = .error e) :
    pollOnce env self = .err e ∧
    (∀ f', pollOnce env self ≠ PollOutcome.continue_ f') ∧
    (∀ fuel, pollRust env (fuel + 1) self = (.error e, self)) := by
  refine ⟨by simp [pollOnce, hs, hnet], ?_, ?_⟩
  · intro f' h
    simp [pollOnce, hs, hnet] at h
  · intro fuel
    simp [pollRust, pollOnce, hs, hnet]

/-- Witness for C1 at a concrete failing instant. -/
theorem step1_error_aborts_fetch_witness :
    pollOnce envNetError futAwaitRole =
      .err (CredentialsError.new "connection refused") ∧
    pollOnce envNetError futAwaitRole ≠ PollOutcome.continue_ futAwaitRole ∧
    pollRust envNetError 1 futAwaitRole =
      (.error (CredentialsError.new "connection refused"), futAwaitRole) :=
  ⟨(step1_error_aborts_fetch envNetError futAwaitRole roleListFuture
      (CredentialsError.new "connection refused") rfl rfl).1,
   (step1_error_aborts_fetch envNetError futAwaitRole roleListFuture
      (CredentialsError.new "connection refused") rfl rfl).2.1 futAwaitRole,
   (step1_error_aborts_fetch envNetError futAwaitRole roleListFuture
      (CredentialsError.new "connection refused") rfl rfl).2.2 0⟩

/-- Counterexample to claim C2: on the two-line body `"role-a\nrole-b"` the
step-2 url is built from the whole body, not from the first line
`"role-a"`: the code does no newline splitting. -/
theorem role_name_not_first_line :
    pollOnce envTwoLines futAwaitRole =
      .continue_ { futAwaitRole with state := (.GetCredentialsFromRole
        (HttpClientFuture.mk
          (credentials_provider_url "169.254.169.254" ("role-a" ++ "\n" ++ "role-b"))
          (Duration.from_secs 30))) } ∧
    credentials_provider_url "169.254.169.254" ("role-a" ++ "\n" ++ "role-b") ≠
      credentials_provider_url "169.254.169.254" "role-a" := by
  constructor
  · rfl
  · decide

/-- Claim C2 as amended: the role name used to build the step-2 url is the
entire response body of step 1, verbatim. -/
theorem role_name_is_whole_body (env : Env)
    (self : InstanceMetadataProviderFuture) (f : HttpClientFuture)
    (body : String) (u : Uri) (hs : self.state = .GetRoleName f)
    (hnet : env.net f = .ok (.ready body))
    (hp : env.parseUri (credentials_provider_url self.metadata_ip_addr body) = .ok u) :
    pollOnce env self = .continue_ { self with state := (.GetCredentialsFromRole
      (HttpClientFuture.mk u self.timeout)) } := by
  simp [pollOnce, hs, hnet, get_credentials_from_role, hp, HttpClient.get]

/-- Witness for the amended C2 at a concrete two-line body. -/
theorem role_name_is_whole_body_witness :
    pollOnce envTwoLines futAwaitRole =
      .continue_ { futAwaitRole with state := (.GetCredentialsFromRole
        (HttpClientFuture.mk
          (credentials_provider_url "169.254.169.254" ("role-a" ++ "\n" ++ "role-b"))
          (Duration.from_secs 30))) } :=
  role_name_is_whole_body envTwoLines futAwaitRole roleListFuture
    ("role-a" ++ "\n" ++ "role-b")
    (credentials_provider_url "169.254.169.254" ("role-a" ++ "\n" ++ "role-b"))
    rfl rfl rfl

/-- Counterexample to claim C3: on an empty role-discovery body the fetch
does not resolve to an error; it transitions into the credential-retrieval
state, whose url (built from the empty role name) is the step-1 listing url
itself. -/
theorem empty_body_not_error :
    pollOnce envEmptyBody futAwaitRole =
      .continue_ { futAwaitRole with state := (.GetCredentialsFromRole
        (HttpClientFuture.mk (credentials_provider_url "169.254.169.254" "")
          (Duration.from_secs 30))) } ∧
    credentials_provider_url "169.254.169.254" "" =
      role_name_address "169.254.169.254" := by
  constructor
  · rfl
  · decide

/-- Claim C3 as amended: an empty role-discovery body does not abort the
fetch; the protocol proceeds to the credential-retrieval step with the empty
role name. -/
theorem empty_body_proceeds_to_step2 (env : Env)
    (self : InstanceMetadataProviderFuture) (f : HttpClientFuture) (u : Uri)
    (hs : self.state = .GetRoleName f) (hnet : env.net f = .ok (.ready ""))
    (hp : env.parseUri (credentials_provider_url self.metadata_ip_addr "") = .ok u) :
    pollOnce env self = .continue_ { self with state := (.GetCredentialsFromRole
      (HttpClientFuture.mk u self.timeout)) } ∧
    (∀ e, pollOnce env self ≠ PollOutcome.err e) := by
  constructor
  · simp [pollOnce, hs, hnet, get_credentials_from_role, hp, HttpClient.get]
  · intro e h
    simp [pollOnce, hs, hnet, get_credentials_from_role, hp, HttpClient.get] at h

/-- Witness for the amended C3 at a concrete empty-body instant. -/
theorem empty_body_proceeds_to_step2_witness :
    pollOnce envEmptyBody futAwaitRole =
      .continue_ { futAwaitRole with state := (.GetCredentialsFromRole
        (HttpClientFuture.mk (credentials_provider_url "169.254.169.254" "")
          (Duration.from_secs 30))) } ∧
    pollOnce envEmptyBody futAwaitRole ≠
      PollOutcome.err (CredentialsError.new "connection refused") :=
  ⟨(empty_body_proceeds_to_step2 envEmptyBody futAwaitRole roleListFuture
      (credentials_provider_url "169.254.169.254" "") rfl rfl rfl).1,
   (empty_body_proceeds_to_step2 envEmptyBody futAwaitRole roleListFuture
      (credentials_provider_url "169.254.169.254" "") rfl rfl rfl).2
      (CredentialsError.new "connection refused")⟩

/-- Claim C4: with an override set via `set_ip_addr_with_port(ip, port)`,
step 1 targets `http://ip:port/latest/meta-data/iam/security-credentials/`
(trailing slash) and step 2 targets
`http://ip:port/latest/meta-data/iam/security-credentials/role`; the GETs
are issued on exactly these urls; with no override the default address
`169.254.169.254` is used. -/
theorem endpoint_override_targets_host_port (p : InstanceMetadataProvider)
    (ip port role : String) (pu : String → Except String Uri)
    (cl : HttpClient) (t : Duration) (u1 u2 : Uri)
    (h1 : pu (role_name_address ((p.set_ip_addr_with_port ip port).metadata_ip_addr)) = .ok u1)
    (h2 : pu (credentials_provider_url ((p.set_ip_addr_with_port ip port).metadata_ip_addr) role) = .ok u2) :
    role_name_address ((p.set_ip_addr_with_port ip port).metadata_ip_addr) =
      "http://" ++ ip ++ ":" ++ port ++ "/latest/meta-data/iam/security-credentials/" ∧
    credentials_provider_url ((p.set_ip_addr_with_port ip port).metadata_ip_addr) role =
      "http://" ++ ip ++ ":" ++ port ++ "/latest/meta-data/iam/security-credentials/" ++ role ∧
    get_role_name pu cl t ((p.set_ip_addr_with_port ip port).metadata_ip_addr) =
      .ok (cl.get u1 t) ∧
    get_credentials_from_role pu cl t role ((p.set_ip_addr_with_port ip port).metadata_ip_addr) =
      .ok (cl.get u2 t) ∧
    InstanceMetadataProvider.new.metadata_ip_addr = "169.254.169.254" ∧
    role_name_address InstanceMetadataProvider.new.metadata_ip_addr =
      "http://169.254.169.254/latest/meta-data/iam/security-credentials/" ∧
    credentials_provider_url InstanceMetadataProvider.new.metadata_ip_addr role =
      "http://169.254.169.254/latest/meta-data/iam/security-credentials/" ++ role := by
  have hcu : ∀ s r, credentials_provider_url s r = role_name_address s ++ r :=
    fun s r => rfl
  have hra : role_name_address ((p.set_ip_addr_with_port ip port).metadata_ip_addr) =
      "http://" ++ ip ++ ":" ++ port ++ "/latest/meta-data/iam/security-credentials/" := by
    show role_name_address (ip ++ ":" ++ port) = _
    unfold role_name_address
    simp only [String.append_assoc]
    congr 1
  have hdef : role_name_address InstanceMetadataProvider.new.metadata_ip_addr =
      "http://169.254.169.254/latest/meta-data/iam/security-credentials/" := by
    decide
  refine ⟨hra, ?_, ?_, ?_, rfl, hdef, ?_⟩
  · rw [hcu, hra]
  · simp [get_role_name, h1]
  · simp [get_credentials_from_role, h2]
  · rw [hcu, hdef]

/-- Witness for C4 at the spec's concrete override `127.0.0.1:8080` and at
the default endpoint. -/
theorem endpoint_override_targets_host_port_witness :
    role_name_address ((InstanceMetadataProvider.new.set_ip_addr_with_port
        "127.0.0.1" "8080").metadata_ip_addr) =
      "http://" ++ "127.0.0.1" ++ ":" ++ "8080" ++
        "/latest/meta-data/iam/security-credentials/" ∧
    credentials_provider_url ((InstanceMetadataProvider.new.set_ip_addr_with_port
        "127.0.0.1" "8080").metadata_ip_addr) "role-a" =
      "http://" ++ "127.0.0.1" ++ ":" ++ "8080" ++
        "/latest/meta-data/iam/security-credentials/" ++ "role-a" ∧
    get_role_name Except.ok HttpClient.new (Duration.from_secs 30)
        ((InstanceMetadataProvider.new.set_ip_addr_with_port
          "127.0.0.1" "8080").metadata_ip_addr) =
      .ok (HttpClient.new.get
        (role_name_address ((InstanceMetadataProvider.new.set_ip_addr_with_port
          "127.0.0.1" "8080").metadata_ip_addr)) (Duration.from_secs 30)) ∧
    get_credentials_from_role Except.ok HttpClient.new (Duration.from_secs 30)
        "role-a" ((InstanceMetadataProvider.new.set_ip_addr_with_port
          "127.0.0.1" "8080").metadata_ip_addr) =
      .ok (HttpClient.new.get
        (credentials_provider_url ((InstanceMetadataProvider.new.set_ip_addr_with_port
          "127.0.0.1" "8080").metadata_ip_addr) "role-a") (Duration.from_secs 30)) ∧
    InstanceMetadataProvider.new.metadata_ip_addr = "169.254.169.254" ∧
    role_name_address InstanceMetadataProvider.new.metadata_ip_addr =
      "http://169.254.169.254/latest/meta-data/iam/security-credentials/" ∧
    credentials_provider_url InstanceMetadataProvider.new.metadata_ip_addr "role-a" =
      "http://169.254.169.254/latest/meta-data/iam/security-credentials/" ++ "role-a" :=
  endpoint_override_targets_host_port InstanceMetadataProvider.new
    "127.0.0.1" "8080" "role-a" Except.ok HttpClient.new (Duration.from_secs 30)
    (role_name_address ((InstanceMetadataProvider.new.set_ip_addr_with_port
      "127.0.0.1" "8080").metadata_ip_addr))
    (credentials_provider_url ((InstanceMetadataProvider.new.set_ip_addr_with_port
      "127.0.0.1" "8080").metadata_ip_addr) "role-a")
    rfl rfl

/-- Claim C5: the poll-driven state machine only moves forward: every taken
transition increases the state's position along `Start → GetRoleName →
GetCredentialsFromRole → Done` by exactly one, and a not-ready poll leaves
the future exactly as it was (no state is re-entered, no step retried). -/
theorem poll_transitions_forward_only (env : Env)
    (self next : InstanceMetadataProviderFuture) :
    (pollOnce env self = .continue_ next →
      stateRank next.state = stateRank self.state + 1) ∧
    (pollOnce env self = .notReady next → next = self) := by
  obtain ⟨st, cl, t, ip⟩ := self
  constructor <;> intro h
  · cases st with
    | Start =>
        cases hgr : get_role_name env.parseUri cl t ip with
        | error e => simp [pollOnce, hgr] at h
        | ok nf =>
            simp [pollOnce, hgr] at h
            subst h
            simp [stateRank]
    | GetRoleName f =>
        cases hnet : env.net f with
        | error e => simp [pollOnce, hnet] at h
        | ok a =>
            cases a with
            | notReady => simp [pollOnce, hnet] at h
            | ready body =>
                cases hgc : get_credentials_from_role env.parseUri cl t body ip with
                | error e => simp [pollOnce, hnet, hgc] at h
                | ok nf =>
                    simp [pollOnce, hnet, hgc] at h
                    subst h
                    simp [stateRank]
    | GetCredentialsFromRole f =>
        cases hnet : env.net f with
        | error e => simp [pollOnce, hnet] at h
        | ok a =>
            cases a with
            | notReady => simp [pollOnce, hnet] at h
            | ready body =>
                simp [pollOnce, hnet] at h
                subst h
                simp [stateRank]
    | Done r =>
        cases r with
        | error e => simp [pollOnce] at h
        | ok c => simp [pollOnce] at h
  · cases st with
    | Start =>
        cases hgr : get_role_name env.parseUri cl t ip with
        | error e => simp [pollOnce, hgr] at h
        | ok nf => simp [pollOnce, hgr] at h
    | GetRoleName f =>
        cases hnet : env.net f with
        | error e => simp [pollOnce, hnet] at h
        | ok a =>
            cases a with
            | notReady =>
                simp [pollOnce, hnet] at h
                exact h.symm
            | ready body =>
                cases hgc : get_credentials_from_role env.parseUri cl t body ip with
                | error e => simp [pollOnce, hnet, hgc] at h
                | ok nf => simp [pollOnce, hnet, hgc] at h
    | GetCredentialsFromRole f =>
        cases hnet : env.net f with
        | error e => simp [pollOnce, hnet] at h
        | ok a =>
            cases a with
            | notReady =>
                simp [pollOnce, hnet] at h
                exact h.symm
            | ready body => simp [pollOnce, hnet] at h
    | Done r =>
        cases r with
        | error e => simp [pollOnce] at h
        | ok c => simp [pollOnce] at h

/-- The future `pollOnce` transitions into on an empty role body: step 2
pending. -/
def futAwaitCredsEmpty : InstanceMetadataProviderFuture :=
  { futAwaitRole with state := (.GetCredentialsFromRole
      (HttpClientFuture.mk (credentials_provider_url "169.254.169.254" "")
        (Duration.from_secs 30))) }

/-- An instant at which every pending GET is still pending. -/
def envPending : Env :=
  { net := fun _ => .ok .notReady
  , parseUri := Except.ok
  , parseCreds := fun _ => .error (CredentialsError.new "unparsable") }

/-- Witness for C5: a concrete taken transition advances the rank by one,
and a concrete not-ready poll leaves the future unchanged. -/
theorem poll_transitions_forward_only_witness :
    stateRank futAwaitCredsEmpty.state = stateRank futAwaitRole.state + 1 ∧
    futAwaitRole = futAwaitRole :=
  ⟨(poll_transitions_forward_only envEmptyBody futAwaitRole futAwaitCredsEmpty).1
      (by rfl),
   (poll_transitions_forward_only envPending futAwaitRole futAwaitRole).2
      (by rfl)⟩

/-- Claim C6: the timeout defaults to 30 seconds at construction,
`set_timeout` replaces it, and each of the two HTTP steps is handed the full
configured timeout value (the same duration for each GET, so timeouts do not
accumulate across steps). -/
theorem timeout_full_per_step (p : InstanceMetadataProvider) (d : Duration)
    (pu : String → Except String Uri) (cl : HttpClient) (t : Duration)
    (ip role : String) (u1 u2 : Uri)
    (h1 : pu (role_name_address ip) = .ok u1)
    (h2 : pu (credentials_provider_url ip role) = .ok u2) :
    InstanceMetadataProvider.new.timeout = Duration.from_secs 30 ∧
    (p.set_timeout d).timeout = d ∧
    (credentials (p.set_timeout d)).timeout = d ∧
    get_role_name pu cl t ip = .ok (HttpClientFuture.mk u1 t) ∧
    get_credentials_from_role pu cl t role ip = .ok (HttpClientFuture.mk u2 t) := by
  refine ⟨rfl, rfl, rfl, ?_, ?_⟩
  · simp [get_role_name, h1, HttpClient.get]
  · simp [get_credentials_from_role, h2, HttpClient.get]

/-- Witness for C6 at a concrete timeout and endpoint. -/
theorem timeout_full_per_step_witness :
    InstanceMetadataProvider.new.timeout = Duration.from_secs 30 ∧
    (InstanceMetadataProvider.new.set_timeout (Duration.from_secs 60)).timeout =
      Duration.from_secs 60 ∧
    (credentials (InstanceMetadataProvider.new.set_timeout
      (Duration.from_secs 60))).timeout = Duration.from_secs 60 ∧
    get_role_name Except.ok HttpClient.new (Duration.from_secs 60) "169.254.169.254" =
      .ok (HttpClientFuture.mk (role_name_address "169.254.169.254")
        (Duration.from_secs 60)) ∧
    get_credentials_from_role Except.ok HttpClient.new (Duration.from_secs 60)
        "role-a" "169.254.169.254" =
      .ok (HttpClientFuture.mk (credentials_provider_url "169.254.169.254" "role-a")
        (Duration.from_secs 60)) :=
  timeout_full_per_step InstanceMetadataProvider.new (Duration.from_secs 60)
    Except.ok HttpClient.new (Duration.from_secs 60) "169.254.169.254" "role-a"
    (role_name_address "169.254.169.254")
    (credentials_provider_url "169.254.169.254" "role-a") rfl rfl

/-- Claim C7: if the credential-retrieval body fails to parse (malformed
JSON or a missing required field, as decided by
`parse_credentials_from_aws_service`), the future moves to `Done` carrying
the error and the fetch resolves to that `CredentialsError`, never to an
`AwsCredentials` value. -/
theorem malformed_credentials_resolve_to_error (env : Env)
    (self : InstanceMetadataProviderFuture) (f : HttpClientFuture)
    (cred_str : String) (e : CredentialsError)
    (hs : self.state = .GetCredentialsFromRole f)
    (hnet : env.net f = .ok (.ready cred_str))
    (hp : env.parseCreds cred_str = .error e) :
    pollOnce env self = .continue_ { self with state := .Done (.error e) } ∧
    pollOnce env { self with state := .Done (.error e) } = .err e := by
  constructor
  · simp [pollOnce, hs, hnet, hp]
  · simp [pollOnce]

/-- Witness for C7 at a concrete unparsable body. -/
theorem malformed_credentials_resolve_to_error_witness :
    pollOnce envTwoLines futAwaitCreds =
      .continue_ { futAwaitCreds with
        state := .Done (.error (CredentialsError.new "unparsable")) } ∧
    pollOnce envTwoLines { futAwaitCreds with
        state := .Done (.error (CredentialsError.new "unparsable")) } =
      .err (CredentialsError.new "unparsable") :=
  malformed_credentials_resolve_to_error envTwoLines futAwaitCreds
    roleListFuture ("role-a" ++ "\n" ++ "role-b")
    (CredentialsError.new "unparsable") rfl rfl rfl

/-- Claim C8: a step-1 or step-2 url that fails to parse as a `Uri` is
surfaced as the return value `CredentialsError::new(e)` — a typed error, not
a crash — and a poll of a fetch whose step-1 url fails to parse resolves to
that error. -/
theorem uri_parse_failure_is_typed_error (env : Env)
    (self : InstanceMetadataProviderFuture) (cl : HttpClient) (t : Duration)
    (ip role : String) (e1 e2 : String)
    (h1 : env.parseUri (role_name_address ip) = .error e1)
    (h2 : env.parseUri (credentials_provider_url ip role) = .error e2)
    (hs : self.state = .Start) (hip : self.metadata_ip_addr = ip) :
    get_role_name env.parseUri cl t ip = .error (CredentialsError.new e1) ∧
    get_credentials_from_role env.parseUri cl t role ip =
      .error (CredentialsError.new e2) ∧
    pollOnce env self = .err (CredentialsError.new e1) := by
  refine ⟨?_, ?_, ?_⟩
  · simp [get_role_name, h1]
  · simp [get_credentials_from_role, h2]
  · simp [pollOnce, hs, get_role_name, hip, h1]

/-- An instant whose `Uri` parser rejects every url. -/
def envBadUri : Env :=
  { net := fun _ => .error (CredentialsError.new "connection refused")
  , parseUri := fun _ => .error "invalid uri"
  , parseCreds := fun _ => .error (CredentialsError.new "unparsable") }

/-- A freshly created fetch against the default endpoint. -/
def futStart : InstanceMetadataProviderFuture :=
  credentials InstanceMetadataProvider.new

/-- Witness for C8 with a concrete rejecting `Uri` parser. -/
theorem uri_parse_failure_is_typed_error_witness :
    get_role_name envBadUri.parseUri HttpClient.new (Duration.from_secs 30)
      "169.254.169.254" = .error (CredentialsError.new "invalid uri") ∧
    get_credentials_from_role envBadUri.parseUri HttpClient.new
      (Duration.from_secs 30) "role-a" "169.254.169.254" =
      .error (CredentialsError.new "invalid uri") ∧
    pollOnce envBadUri futStart = .err (CredentialsError.new "invalid uri") :=
  uri_parse_failure_is_typed_error envBadUri futStart HttpClient.new
    (Duration.from_secs 30) "169.254.169.254" "role-a"
    "invalid uri" "invalid uri" rfl rfl rfl rfl

/-- Claim C9: `credentials()` takes the provider by shared reference and so
leaves it unchanged, and every call returns a fresh future in the `Start`
state carrying the provider's current timeout and endpoint, so repeated
independent calls behave identically. -/
theorem credentials_pure_and_fresh (p : InstanceMetadataProvider) :
    (credentialsCall p).2 = p ∧
    (credentialsCall p).1.state = .Start ∧
    (credentialsCall p).1 = InstanceMetadataProviderFuture.mk .Start
      p.client p.timeout p.metadata_ip_addr ∧
    (credentialsCall ((credentialsCall p).2)).1 = (credentialsCall p).1 :=
  ⟨rfl, rfl, rfl, rfl⟩

/-- Claim C10: a future captures copies of the provider's timeout and
endpoint at creation time: mutating the provider afterwards (modelled by the
updated provider value that `set_timeout` / `set_ip_addr_with_port` return)
does not change the timeout or the step urls of the already-created future,
whose fields still match the original provider and differ from the mutated
one. -/
theorem future_snapshots_provider_config (p : InstanceMetadataProvider)
    (d : Duration) (ip port role : String)
    (hd : d ≠ p.timeout) (ha : ip ++ ":" ++ port ≠ p.metadata_ip_addr) :
    (credentials p).timeout = p.timeout ∧
    (credentials p).metadata_ip_addr = p.metadata_ip_addr ∧
    (p.set_timeout d).timeout = d ∧
    (p.set_ip_addr_with_port ip port).metadata_ip_addr = ip ++ ":" ++ port ∧
    (credentials p).timeout ≠ (p.set_timeout d).timeout ∧
    (credentials p).metadata_ip_addr ≠
      (p.set_ip_addr_with_port ip port).metadata_ip_addr ∧
    role_name_address (credentials p).metadata_ip_addr =
      role_name_address p.metadata_ip_addr ∧
    credentials_provider_url (credentials p).metadata_ip_addr role =
      credentials_provider_url p.metadata_ip_addr role := by
  refine ⟨rfl, rfl, rfl, rfl, ?_, ?_, rfl, rfl⟩
  · show p.timeout ≠ d
    exact fun h => hd h.symm
  · show p.metadata_ip_addr ≠ ip ++ ":" ++ port
    exact fun h => ha h.symm

/-- Witness for C10 at the default provider and the spec's override. -/
theorem future_snapshots_provider_config_witness :
    (credentials InstanceMetadataProvider.new).timeout =
      InstanceMetadataProvider.new.timeout ∧
    (credentials InstanceMetadataProvider.new).metadata_ip_addr =
      InstanceMetadataProvider.new.metadata_ip_addr ∧
    (InstanceMetadataProvider.new.set_timeout (Duration.from_secs 60)).timeout =
      Duration.from_secs 60 ∧
    (InstanceMetadataProvider.new.set_ip_addr_with_port
      "127.0.0.1" "8080").metadata_ip_addr = "127.0.0.1" ++ ":" ++ "8080" ∧
    (credentials InstanceMetadataProvider.new).timeout ≠
      (InstanceMetadataProvider.new.set_timeout (Duration.from_secs 60)).timeout ∧
    (credentials InstanceMetadataProvider.new).metadata_ip_addr ≠
      (InstanceMetadataProvider.new.set_ip_addr_with_port
        "127.0.0.1" "8080").metadata_ip_addr ∧
    role_name_address (credentials InstanceMetadataProvider.new).metadata_ip_addr =
      role_name_address InstanceMetadataProvider.new.metadata_ip_addr ∧
    credentials_provider_url
        (credentials InstanceMetadataProvider.new).metadata_ip_addr "role-a" =
      credentials_provider_url InstanceMetadataProvider.new.metadata_ip_addr
        "role-a" :=
  future_snapshots_provider_config InstanceMetadataProvider.new
    (Duration.from_secs 60) "127.0.0.1" "8080" "role-a"
    (by decide) (by decide)

end Rusoto
